import Mathlib

/-!
Shallow embedding of the freelance-marketplace backend
(`src/backend/app/models.py`, `src/backend/app/routes.py`,
`src/backend/app/schemas.py`).

The relational store is embedded as explicit lists of rows; machine floats
(`ranking_score`, `budget`, `amount`) are modelled as exact rationals;
Python `round(x, 2)` is modelled as round-half-to-even at two decimals on
rationals; SQL `LIKE` is modelled by an executable pattern matcher
(`%` = any sequence, `_` = any single character, case-insensitive letter
comparison as in the SQLite default collation for ASCII).  Each Flask route
becomes a function `State → inputs → Except ApiErr (State × output)`; an
`Except.error` result corresponds to an early `return jsonify(...), code`
before any session mutation, so the store is unchanged exactly when the
result is an error.
-/

/-- `User` row (models.py, class `User`).  `bio` and `skills` are nullable
columns; `ranking_score` defaults to `0.0`. -/
structure User where
  id : Nat
  username : String
  email : String
  password_hash : String
  is_freelancer : Bool := false
  bio : Option String := none
  skills : Option String := none
  ranking_score : ℚ := 0
  deriving DecidableEq, Repr

/-- `Project` row (models.py, class `Project`).  `status` defaults to
`"open"`; `freelancer_id` is the only nullable foreign key. -/
structure Project where
  id : Nat
  title : String
  description : String
  budget : ℚ
  status : String := "open"
  created_at : Nat
  client_id : Nat
  freelancer_id : Option Nat := none
  deriving DecidableEq, Repr

/-- `Bid` row (models.py, class `Bid`). -/
structure Bid where
  id : Nat
  amount : ℚ
  proposal : String
  created_at : Nat
  project_id : Nat
  freelancer_id : Nat
  deriving DecidableEq, Repr

/-- `Review` row (models.py, class `Review`). -/
structure Review where
  id : Nat
  rating : Int
  comment : Option String := none
  created_at : Nat
  project_id : Nat
  reviewer_id : Nat
  reviewee_id : Nat
  deriving DecidableEq, Repr

/-- The database: one list of rows per table, plus a logical clock that
stands for `datetime.utcnow` (strictly increasing across row creations). -/
structure State where
  users : List User := []
  projects : List Project := []
  bids : List Bid := []
  reviews : List Review := []
  clock : Nat := 0
  deriving DecidableEq, Repr

/-- API error outcomes: `notFound` is a 404 from `get_or_404` (or a JWT
identity that resolves to no user), `forbidden` a 403, `badRequest` a 400,
each carrying the `msg` string of the corresponding `jsonify` call. -/
inductive ApiErr where
  | notFound : ApiErr
  | forbidden : String → ApiErr
  | badRequest : String → ApiErr
  deriving DecidableEq, Repr

/-- `User.query.get(id)` / `get_user_from_jwt`. -/
def findUser (s : State) (uid : Nat) : Option User :=
  s.users.find? (fun u => u.id == uid)

/-- `Project.query.get_or_404(id)` (the found case). -/
def findProject (s : State) (pid : Nat) : Option Project :=
  s.projects.find? (fun p => p.id == pid)

/-- `Bid.query.get_or_404(bid_id)` (the found case). -/
def findBid (s : State) (bid_id : Nat) : Option Bid :=
  s.bids.find? (fun b => b.id == bid_id)

/-- Writing back a mutated project row (the ORM mutates the row in place;
here the row with the given primary key is replaced). -/
def setProject (s : State) (pid : Nat) (p : Project) : State :=
  { s with projects := s.projects.map (fun q => if q.id == pid then p else q) }

/-- Autoincrement primary key for a new bid row. -/
def freshBidId (s : State) : Nat :=
  (s.bids.foldr (fun b m => max b.id m) 0) + 1

/-- Autoincrement primary key for a new project row. -/
def freshProjectId (s : State) : Nat :=
  (s.projects.foldr (fun p m => max p.id m) 0) + 1

/-- Autoincrement primary key for a new review row. -/
def freshReviewId (s : State) : Nat :=
  (s.reviews.foldr (fun r m => max r.id m) 0) + 1

/-- Python truthiness of an optional integer: `None` and `0` are falsy.
Used to embed `if not reviewee_id:` in `post_review`. -/
def pyTruthyOptNat : Option Nat → Bool
  | none => false
  | some n => n != 0

/-- Round the fraction `n / d` (with `d > 0`) half-to-even to an integer —
the tie rule of Python 3 `round`. -/
def roundHalfEven (n d : ℤ) : ℤ :=
  let f : ℤ := Int.fdiv n d
  let rn : ℤ := n - f * d
  if 2 * rn < d then f
  else if d < 2 * rn then f + 1
  else if f % 2 = 0 then f else f + 1

/-- Python `round(x, 2)` modelled on exact rationals: round `x * 100`
half-to-even to an integer and divide back by 100. -/
def pyRound2 (q : ℚ) : ℚ := mkRat (roundHalfEven (q.num * 100) (q.den : ℤ)) 100

/-- The value `update_user_ranking` recomputes for a user: mean of the
ratings of all reviews whose `reviewee_id` is the user (the exact rational
`sum / length`), rounded to two decimals, or `0.0` when there are none
(routes.py, `update_user_ranking`). -/
def rankingFormula (s : State) (uid : Nat) : ℚ :=
  let rs := s.reviews.filter (fun r => r.reviewee_id == uid)
  if rs.isEmpty then 0
  else pyRound2 (mkRat (rs.map (fun r => r.rating)).sum rs.length)

/-- routes.py `update_user_ranking`: recalculates and stores a user's
average ranking score; does nothing when the user id resolves to no row.
-/
def update_user_ranking (s : State) (uid : Nat) : State :=
  match findUser s uid with
  | none => s
  | some _ =>
      let score := rankingFormula s uid
      { s with users :=
          s.users.map (fun u =>
            if u.id == uid then { u with ranking_score := score } else u) }

/-- Case-insensitive character comparison (ASCII, as in the SQLite default
`LIKE` collation). -/
def charEqCI (a b : Char) : Bool := a.toLower == b.toLower

/-- Does some suffix of the text (including the text itself) satisfy
`f`?  Used for the `%` wildcard, which consumes any prefix. -/
def anySuffix (f : List Char → Bool) : List Char → Bool
  | [] => f []
  | c :: s2 => f (c :: s2) || anySuffix f s2

/-- SQL `LIKE` pattern matching over characters: `%` matches any sequence,
`_` any single character, all other characters case-insensitively. -/
def likeMatch : List Char → List Char → Bool
  | [], s => s.isEmpty
  | p :: ps, s =>
      if p = '%' then anySuffix (likeMatch ps) s
      else
        match s with
        | [] => false
        | c :: s2 => (if p = '_' then true else charEqCI p c) && likeMatch ps s2

/-- routes.py `get_projects`: open projects, optionally filtered with
`Project.description.like("%" + skill + "%")` (the raw query string is
interpolated into the pattern), ordered by `created_at` descending.
Python `if skill_query:` makes an absent or empty filter a no-op. -/
def get_projects (s : State) (skill : Option String) : List Project :=
  let base := s.projects.filter (fun p => p.status == "open")
  let filtered :=
    match skill with
    | none => base
    | some q =>
        if q == "" then base
        else base.filter
          (fun p => likeMatch ("%" ++ q ++ "%").data p.description.data)
  filtered.mergeSort (fun a b => decide (b.created_at ≤ a.created_at))

/-- routes.py `create_project`: any authenticated actor creates an open
project owned by them, with no freelancer. -/
def create_project (s : State) (actor_id : Nat) (title description : String)
    (budget : ℚ) : Except ApiErr (State × Project) :=
  match findUser s actor_id with
  | none => .error .notFound
  | some user =>
      let p : Project :=
        { id := freshProjectId s, title := title, description := description,
          budget := budget, status := "open", created_at := s.clock,
          client_id := user.id, freelancer_id := none }
      .ok ({ s with projects := s.projects ++ [p], clock := s.clock + 1 }, p)

/-- routes.py `update_project`: client-only partial update; each `none`
argument models a key absent from the request JSON (`data.get(k, old)`),
including a free-form `status` write. -/
def update_project (s : State) (actor_id pid : Nat)
    (title description : Option String) (budget : Option ℚ)
    (status : Option String) : Except ApiErr (State × Project) :=
  match findProject s pid with
  | none => .error .notFound
  | some project =>
      match findUser s actor_id with
      | none => .error .notFound
      | some user =>
          if project.client_id != user.id then
            .error (.forbidden "Not authorized")
          else
            let p : Project :=
              { project with
                title := title.getD project.title,
                description := description.getD project.description,
                budget := budget.getD project.budget,
                status := status.getD project.status }
            .ok (setProject s pid p, p)

/-- routes.py `accept_bid`: client-only, project must be open, the bid must
belong to the project; on success the project's freelancer becomes the
bid's freelancer and the status becomes `"in_progress"`. -/
def accept_bid (s : State) (actor_id pid bid_id : Nat) :
    Except ApiErr (State × Project) :=
  match findProject s pid with
  | none => .error .notFound
  | some project =>
      match findUser s actor_id with
      | none => .error .notFound
      | some user =>
          if project.client_id != user.id then
            .error (.forbidden "Not authorized")
          else if project.status != "open" then
            .error (.badRequest "Project is not open for bidding")
          else
            match findBid s bid_id with
            | none => .error .notFound
            | some bid =>
                if bid.project_id != project.id then
                  .error (.badRequest "Bid does not belong to this project")
                else
                  let p : Project :=
                    { project with
                      freelancer_id := some bid.freelancer_id,
                      status := "in_progress" }
                  .ok (setProject s pid p, p)

/-- routes.py `place_bid`: freelancers only, project must be open, at most
one bid per (project, freelancer) — enforced by an application-level
`filter_by` pre-check; on success a new bid row is appended. -/
def place_bid (s : State) (actor_id pid : Nat) (amount : ℚ)
    (proposal : String) : Except ApiErr (State × Bid) :=
  match findUser s actor_id with
  | none => .error .notFound
  | some user =>
      match findProject s pid with
      | none => .error .notFound
      | some project =>
          if !user.is_freelancer then
            .error (.forbidden "Only freelancers can bid")
          else if project.status != "open" then
            .error (.badRequest "Project is not open for bidding")
          else if (s.bids.find? (fun b =>
              b.project_id == pid && b.freelancer_id == user.id)).isSome then
            .error (.badRequest "You have already placed a bid on this project")
          else
            let b : Bid :=
              { id := freshBidId s, amount := amount, proposal := proposal,
                created_at := s.clock, project_id := pid,
                freelancer_id := user.id }
            .ok ({ s with bids := s.bids ++ [b], clock := s.clock + 1 }, b)

/-- The `if / elif / else` of routes.py `post_review` computing
`reviewee_id`: `none` means the actor is not a party (403); `some o` is the
computed optional reviewee (Python `user.id == project.freelancer_id` is
`False` when `freelancer_id` is `None`). -/
def revieweeOf (user_id : Nat) (project : Project) : Option (Option Nat) :=
  if user_id == project.client_id then some project.freelancer_id
  else if some user_id == project.freelancer_id then some (some project.client_id)
  else none

/-- routes.py `post_review`: project must be completed, actor must be a
party, the counterpart is the reviewee (`if not reviewee_id:` rejects a
falsy reviewee), at most one review per (project, reviewer) — an
application-level pre-check; on success the review row is appended and
`update_user_ranking` runs synchronously for the reviewee. -/
def post_review (s : State) (actor_id pid : Nat) (rating : Int)
    (comment : Option String) : Except ApiErr (State × Review) :=
  match findProject s pid with
  | none => .error .notFound
  | some project =>
      match findUser s actor_id with
      | none => .error .notFound
      | some user =>
          if project.status != "completed" then
            .error (.badRequest "Project must be completed to leave a review")
          else
            match revieweeOf user.id project with
            | none => .error (.forbidden "You are not part of this project")
            | some ro =>
                if !pyTruthyOptNat ro then
                  .error (.badRequest "Cannot review this project (no freelancer assigned)")
                else if (s.reviews.find? (fun r =>
                    r.project_id == pid && r.reviewer_id == user.id)).isSome then
                  .error (.badRequest "You have already reviewed this project")
                else
                  let rv : Review :=
                    { id := freshReviewId s, rating := rating,
                      comment := comment, created_at := s.clock,
                      project_id := pid, reviewer_id := user.id,
                      reviewee_id := ro.getD 0 }
                  let s1 : State :=
                    { s with reviews := s.reviews ++ [rv],
                             clock := s.clock + 1 }
                  .ok (update_user_ranking s1 rv.reviewee_id, rv)

/-- Decidable equality of route results, for evaluating the embedding on
concrete inputs. -/
instance {e a : Type} [DecidableEq e] [DecidableEq a] :
    DecidableEq (Except e a) := fun x y =>
  match x, y with
  | .ok v, .ok w =>
      if h : v = w then isTrue (by rw [h])
      else isFalse (by intro he; cases he; exact h rfl)
  | .error v, .error w =>
      if h : v = w then isTrue (by rw [h])
      else isFalse (by intro he; cases he; exact h rfl)
  | .ok _, .error _ => isFalse (by intro he; cases he)
  | .error _, .ok _ => isFalse (by intro he; cases he)

/-- The store visible after a route returns: an `Except.error` is an early
`return` before any `db.session` mutation, so the store is the one the
route started from. -/
def stateAfter {α : Type} (r : Except ApiErr (State × α)) (s : State) : State :=
  match r with
  | .ok (s2, _) => s2
  | .error _ => s

/-! ### Generic lemmas about the row-list store -/

theorem find?_map_of_pred_comm {α : Type} (l : List α) (f : α → α) (p : α → Bool)
    (hf : ∀ a, p (f a) = p a) : (l.map f).find? p = (l.find? p).map f := by
  induction l with
  | nil => rfl
  | cons a t ih =>
      simp only [List.map_cons]
      by_cases h : p a = true
      · rw [List.find?_cons_of_pos _ (by rw [hf]; exact h),
          List.find?_cons_of_pos _ h]
        rfl
      · rw [List.find?_cons_of_neg _ (by rw [hf]; exact h),
          List.find?_cons_of_neg _ h, ih]

theorem find?_map_replace {α : Type} (l : List α) (p : α → Bool) (new : α)
    (hnew : p new = true) (q : α) (hq : l.find? p = some q) :
    (l.map (fun x => if p x then new else x)).find? p = some new := by
  induction l with
  | nil => cases hq
  | cons a t ih =>
      simp only [List.map_cons]
      by_cases h : p a = true
      · rw [if_pos h, List.find?_cons_of_pos _ hnew]
      · rw [if_neg h, List.find?_cons_of_neg _ h]
        rw [List.find?_cons_of_neg _ h] at hq
        exact ih hq

theorem id_le_foldr_bids (l : List Bid) (b : Bid) (hb : b ∈ l) :
    b.id ≤ l.foldr (fun x m => max x.id m) 0 := by
  induction l with
  | nil => cases hb
  | cons a t ih =>
      cases hb with
      | head => exact le_max_left _ _
      | tail _ hb => exact le_trans (ih hb) (le_max_right _ _)

theorem findBid_append_fresh (s : State) (b : Bid) (hb : b.id = freshBidId s) :
    (s.bids ++ [b]).find? (fun x => x.id == b.id) = some b := by
  rw [List.find?_append]
  have h1 : s.bids.find? (fun x => x.id == b.id) = none := by
    rw [List.find?_eq_none]
    intro x hx
    simp only [beq_iff_eq]
    intro he
    have hle := id_le_foldr_bids s.bids x hx
    rw [hb] at he
    unfold freshBidId at he
    omega
  rw [h1]
  simp [List.find?]

theorem setProject_users (s : State) (pid : Nat) (p : Project) :
    (setProject s pid p).users = s.users := rfl

theorem setProject_bids (s : State) (pid : Nat) (p : Project) :
    (setProject s pid p).bids = s.bids := rfl

theorem setProject_reviews (s : State) (pid : Nat) (p : Project) :
    (setProject s pid p).reviews = s.reviews := rfl

theorem findProject_setProject (s : State) (pid : Nat) (p q : Project)
    (hq : findProject s pid = some q) (hp : p.id = q.id) :
    findProject (setProject s pid p) pid = some p := by
  have hqq := List.find?_some hq
  unfold findProject setProject
  apply find?_map_replace
  · rw [hp]; exact hqq
  · exact hq

theorem uur_reviews (s : State) (uid : Nat) :
    (update_user_ranking s uid).reviews = s.reviews := by
  unfold update_user_ranking
  cases findUser s uid <;> rfl

theorem uur_projects (s : State) (uid : Nat) :
    (update_user_ranking s uid).projects = s.projects := by
  unfold update_user_ranking
  cases findUser s uid <;> rfl

theorem uur_bids (s : State) (uid : Nat) :
    (update_user_ranking s uid).bids = s.bids := by
  unfold update_user_ranking
  cases findUser s uid <;> rfl

theorem rankingFormula_congr (s1 s2 : State) (uid : Nat)
    (h : s1.reviews = s2.reviews) : rankingFormula s1 uid = rankingFormula s2 uid := by
  unfold rankingFormula
  rw [h]

theorem uur_findUser (s : State) (uid : Nat) (u : User)
    (hu : findUser s uid = some u) :
    findUser (update_user_ranking s uid) uid =
      some { u with ranking_score := rankingFormula s uid } := by
  have hpu := List.find?_some hu
  unfold update_user_ranking
  rw [hu]
  unfold findUser
  rw [find?_map_of_pred_comm _ _ _ (fun v => by by_cases h : (v.id == uid) = true <;> simp [h])]
  unfold findUser at hu
  rw [hu]
  exact congrArg some (if_pos hpu)

/-! ### Demo rows shared by witnesses -/

/-- Demo client (id 1). -/
def dU1 : User := { id := 1, username := "alice", email := "a@x", password_hash := "h1" }

/-- Demo freelancer (id 2). -/
def dU2 : User := { id := 2, username := "bob", email := "b@x", password_hash := "h2", is_freelancer := true }

/-- Demo open project owned by user 1. -/
def dP1 : Project := { id := 1, title := "T", description := "Need a React dev", budget := 100, created_at := 0, client_id := 1 }

/-- Demo bid by user 2 on project 1. -/
def dB1 : Bid := { id := 1, amount := 90, proposal := "hi", created_at := 1, project_id := 1, freelancer_id := 2 }

/-- Demo store: two users, one open project, one bid. -/
def dS : State := { users := [dU1, dU2], projects := [dP1], bids := [dB1], clock := 2 }

/-- C4: with the project, actor and bid all resolving, `accept_bid`
succeeds exactly when the actor is the project's client, the project is
open, and the bid belongs to this project; on success the project's
freelancer becomes the bid's freelancer and its status `"in_progress"`;
otherwise it fails with the 403 authorization error (non-client), the 400
state error (non-open project), or the 400 validation error (bid of a
different project), in that order of precedence. -/
theorem C4_accept_bid_characterization
    (s : State) (aid pid bid_id : Nat) (p : Project) (u : User) (b : Bid)
    (hfp : findProject s pid = some p) (hfu : findUser s aid = some u)
    (hfb : findBid s bid_id = some b) :
    (p.client_id ≠ u.id →
      accept_bid s aid pid bid_id = .error (.forbidden "Not authorized")) ∧
    (p.client_id = u.id → p.status ≠ "open" →
      accept_bid s aid pid bid_id =
        .error (.badRequest "Project is not open for bidding")) ∧
    (p.client_id = u.id → p.status = "open" → b.project_id ≠ p.id →
      accept_bid s aid pid bid_id =
        .error (.badRequest "Bid does not belong to this project")) ∧
    (p.client_id = u.id → p.status = "open" → b.project_id = p.id →
      accept_bid s aid pid bid_id =
        .ok (setProject s pid
              { p with freelancer_id := some b.freelancer_id,
                       status := "in_progress" },
             { p with freelancer_id := some b.freelancer_id,
                      status := "in_progress" }) ∧
      findProject
          (setProject s pid
            { p with freelancer_id := some b.freelancer_id,
                     status := "in_progress" }) pid =
        some { p with freelancer_id := some b.freelancer_id,
                      status := "in_progress" }) ∧
    ((∃ s2 out, accept_bid s aid pid bid_id = .ok (s2, out)) ↔
      (p.client_id = u.id ∧ p.status = "open" ∧ b.project_id = p.id)) := by
  have e1 : p.client_id ≠ u.id →
      accept_bid s aid pid bid_id = .error (.forbidden "Not authorized") := by
    intro hne
    simp [accept_bid, hfp, hfu, hfb, bne_iff_ne, hne]
  have e2 : p.client_id = u.id → p.status ≠ "open" →
      accept_bid s aid pid bid_id =
        .error (.badRequest "Project is not open for bidding") := by
    intro heq hst
    simp [accept_bid, hfp, hfu, hfb, bne_iff_ne, heq, hst]
  have e3 : p.client_id = u.id → p.status = "open" → b.project_id ≠ p.id →
      accept_bid s aid pid bid_id =
        .error (.badRequest "Bid does not belong to this project") := by
    intro heq hst hbp
    simp [accept_bid, hfp, hfu, hfb, bne_iff_ne, heq, hst, hbp]
  have e4 : p.client_id = u.id → p.status = "open" → b.project_id = p.id →
      accept_bid s aid pid bid_id =
        .ok (setProject s pid
              { p with freelancer_id := some b.freelancer_id,
                       status := "in_progress" },
             { p with freelancer_id := some b.freelancer_id,
                      status := "in_progress" }) := by
    intro heq hst hbp
    simp [accept_bid, hfp, hfu, hfb, bne_iff_ne, heq, hst, hbp]
  have efind : findProject
      (setProject s pid
        { p with freelancer_id := some b.freelancer_id,
                 status := "in_progress" }) pid =
      some { p with freelancer_id := some b.freelancer_id,
                    status := "in_progress" } :=
    findProject_setProject s pid _ p hfp rfl
  refine ⟨e1, e2, e3, fun h1 h2 h3 => ⟨e4 h1 h2 h3, efind⟩, ?_⟩
  constructor
  · rintro ⟨s2, out, hok⟩
    by_cases h1 : p.client_id = u.id
    · by_cases h2 : p.status = "open"
      · by_cases h3 : b.project_id = p.id
        · exact ⟨h1, h2, h3⟩
        · rw [e3 h1 h2 h3] at hok; exact Except.noConfusion hok
      · rw [e2 h1 h2] at hok; exact Except.noConfusion hok
    · rw [e1 h1] at hok; exact Except.noConfusion hok
  · rintro ⟨h1, h2, h3⟩
    exact ⟨_, _, e4 h1 h2 h3⟩

/-- C4 witness: the characterization applied to the demo store, where user
1 owns open project 1 and bid 1 belongs to it. -/
theorem C4_accept_bid_characterization_witness :
    findProject dS 1 = some dP1 ∧ findUser dS 1 = some dU1 ∧
    findBid dS 1 = some dB1 ∧
    ((dP1.client_id ≠ dU1.id →
      accept_bid dS 1 1 1 = .error (.forbidden "Not authorized")) ∧
    (dP1.client_id = dU1.id → dP1.status ≠ "open" →
      accept_bid dS 1 1 1 =
        .error (.badRequest "Project is not open for bidding")) ∧
    (dP1.client_id = dU1.id → dP1.status = "open" → dB1.project_id ≠ dP1.id →
      accept_bid dS 1 1 1 =
        .error (.badRequest "Bid does not belong to this project")) ∧
    (dP1.client_id = dU1.id → dP1.status = "open" → dB1.project_id = dP1.id →
      accept_bid dS 1 1 1 =
        .ok (setProject dS 1
              { dP1 with freelancer_id := some dB1.freelancer_id,
                         status := "in_progress" },
             { dP1 with freelancer_id := some dB1.freelancer_id,
                        status := "in_progress" }) ∧
      findProject
          (setProject dS 1
            { dP1 with freelancer_id := some dB1.freelancer_id,
                       status := "in_progress" }) 1 =
        some { dP1 with freelancer_id := some dB1.freelancer_id,
                        status := "in_progress" }) ∧
    ((∃ s2 out, accept_bid dS 1 1 1 = .ok (s2, out)) ↔
      (dP1.client_id = dU1.id ∧ dP1.status = "open" ∧
        dB1.project_id = dP1.id))) :=
  ⟨rfl, rfl, rfl,
    C4_accept_bid_characterization dS 1 1 1 dP1 dU1 dB1 rfl rfl rfl⟩

/-- C5: every failing operation leaves the store unchanged.  A failed
accept-bid (non-client actor, non-open project, or a bid of another
project) and a failed post-review (non-completed project, non-party actor,
no freelancer assigned, or a duplicate review) each return an error, and
the store visible afterwards is the store the request started from — in
particular no Review row is written and no ranking score changes. -/
theorem C5_failed_ops_leave_store_unchanged
    (s : State) (aid pid bid_id : Nat) (p : Project) (u : User) (b : Bid)
    (rating : Int) (comment : Option String)
    (hfp : findProject s pid = some p) (hfu : findUser s aid = some u)
    (hfb : findBid s bid_id = some b) :
    ((p.client_id ≠ u.id ∨ p.status ≠ "open" ∨ b.project_id ≠ p.id) →
      stateAfter (accept_bid s aid pid bid_id) s = s) ∧
    ((p.status ≠ "completed" ∨
      (u.id ≠ p.client_id ∧ some u.id ≠ p.freelancer_id) ∨
      (u.id = p.client_id ∧ pyTruthyOptNat p.freelancer_id = false) ∨
      (∃ r ∈ s.reviews, r.project_id = pid ∧ r.reviewer_id = u.id)) →
      stateAfter (post_review s aid pid rating comment) s = s) := by
  constructor
  · intro hfail
    suffices h : ∃ e, accept_bid s aid pid bid_id = .error e by
      rcases h with ⟨e, he⟩
      rw [he]
      rfl
    rcases hfail with hne | hst | hbp
    · exact ⟨.forbidden "Not authorized",
        by simp [accept_bid, hfp, hfu, bne_iff_ne, hne]⟩
    · by_cases h1 : p.client_id = u.id
      · exact ⟨.badRequest "Project is not open for bidding",
          by simp [accept_bid, hfp, hfu, bne_iff_ne, h1, hst]⟩
      · exact ⟨.forbidden "Not authorized",
          by simp [accept_bid, hfp, hfu, bne_iff_ne, h1]⟩
    · by_cases h1 : p.client_id = u.id
      · by_cases h2 : p.status = "open"
        · exact ⟨.badRequest "Bid does not belong to this project",
            by simp [accept_bid, hfp, hfu, hfb, bne_iff_ne, h1, h2, hbp]⟩
        · exact ⟨.badRequest "Project is not open for bidding",
            by simp [accept_bid, hfp, hfu, bne_iff_ne, h1, h2]⟩
      · exact ⟨.forbidden "Not authorized",
          by simp [accept_bid, hfp, hfu, bne_iff_ne, h1]⟩
  · intro hfail
    suffices h : ∃ e, post_review s aid pid rating comment = .error e by
      rcases h with ⟨e, he⟩
      rw [he]
      rfl
    by_cases hst : p.status = "completed"
    case neg =>
      exact ⟨.badRequest "Project must be completed to leave a review",
        by simp [post_review, hfp, hfu, bne_iff_ne, hst]⟩
    case pos =>
    rcases hfail with hst2 | ⟨hnc, hnf⟩ | ⟨hc, hfalsy⟩ | ⟨r, hr, hrp, hrr⟩
    · exact absurd hst hst2
    · exact ⟨.forbidden "You are not part of this project",
        by simp [post_review, hfp, hfu, bne_iff_ne, hst, revieweeOf, hnc, hnf]⟩
    · exact ⟨.badRequest "Cannot review this project (no freelancer assigned)",
        by simp [post_review, hfp, hfu, bne_iff_ne, hst, revieweeOf, hc, hfalsy]⟩
    · have hdup2 : ∃ x ∈ s.reviews, x.project_id = pid ∧ x.reviewer_id = u.id :=
        ⟨r, hr, hrp, hrr⟩
      by_cases hc : u.id = p.client_id
      · have hdup3 : ∃ x ∈ s.reviews, x.project_id = pid ∧
            x.reviewer_id = p.client_id := ⟨r, hr, hrp, hrr.trans hc⟩
        by_cases htr : pyTruthyOptNat p.freelancer_id = true
        · exact ⟨.badRequest "You have already reviewed this project",
            by simp [post_review, hfp, hfu, bne_iff_ne, hst, revieweeOf,
              hc, htr, hdup3]⟩
        · exact ⟨.badRequest "Cannot review this project (no freelancer assigned)",
            by simp [post_review, hfp, hfu, bne_iff_ne, hst, revieweeOf,
              hc, Bool.eq_false_iff.mpr htr]⟩
      · by_cases hf : some u.id = p.freelancer_id
        · by_cases htr : pyTruthyOptNat (some p.client_id) = true
          · exact ⟨.badRequest "You have already reviewed this project",
              by simp [post_review, hfp, hfu, bne_iff_ne, hst, revieweeOf,
                hc, hf, htr, hdup2]⟩
          · exact ⟨.badRequest "Cannot review this project (no freelancer assigned)",
              by simp [post_review, hfp, hfu, bne_iff_ne, hst, revieweeOf,
                hc, hf, Bool.eq_false_iff.mpr htr]⟩
        · exact ⟨.forbidden "You are not part of this project",
            by simp [post_review, hfp, hfu, bne_iff_ne, hst, revieweeOf,
              hc, hf]⟩

/-- C5 witness: on the demo store, accept-bid by non-client user 2 and
post-review on the non-completed project both leave the store unchanged. -/
theorem C5_failed_ops_leave_store_unchanged_witness :
    findProject dS 1 = some dP1 ∧ findUser dS 2 = some dU2 ∧
    findBid dS 1 = some dB1 ∧
    stateAfter (accept_bid dS 2 1 1) dS = dS ∧
    stateAfter (post_review dS 2 1 5 none) dS = dS :=
  ⟨rfl, rfl, rfl,
    (C5_failed_ops_leave_store_unchanged dS 2 1 1 dP1 dU2 dB1 5 none
      rfl rfl rfl).1 (Or.inl (by decide)),
    (C5_failed_ops_leave_store_unchanged dS 2 1 1 dP1 dU2 dB1 5 none
      rfl rfl rfl).2 (Or.inl (by decide))⟩

/-- Case analysis on the `reviewee_id` computation of `post_review`. -/
theorem revieweeOf_some_cases (uid : Nat) (p : Project) (ro : Option Nat)
    (h : revieweeOf uid p = some ro) :
    (uid = p.client_id ∧ ro = p.freelancer_id) ∨
    (uid ≠ p.client_id ∧ some uid = p.freelancer_id ∧ ro = some p.client_id) := by
  unfold revieweeOf at h
  by_cases hc : uid = p.client_id
  · left
    refine ⟨hc, ?_⟩
    simp [hc] at h
    exact h.symm
  · right
    by_cases hf : some uid = p.freelancer_id
    · refine ⟨hc, hf, ?_⟩
      simp [hc, hf] at h
      exact h.symm
    · simp [hc, hf] at h

/-- The success equation of `post_review`: when every check passes, the
review row is appended and the ranking of the reviewee is recomputed. -/
theorem post_review_ok_eq (s : State) (aid pid : Nat) (rating : Int)
    (comment : Option String) (p : Project) (u : User) (ro : Option Nat)
    (hfp : findProject s pid = some p) (hfu : findUser s aid = some u)
    (hst : p.status = "completed") (hro : revieweeOf u.id p = some ro)
    (htr : pyTruthyOptNat ro = true)
    (hnodup : s.reviews.find? (fun r =>
      r.project_id == pid && r.reviewer_id == u.id) = none) :
    post_review s aid pid rating comment =
      .ok (update_user_ranking
            { s with
                reviews := s.reviews ++
                  [{ id := freshReviewId s, rating := rating,
                     comment := comment, created_at := s.clock,
                     project_id := pid, reviewer_id := u.id,
                     reviewee_id := ro.getD 0 }],
                clock := s.clock + 1 }
            (ro.getD 0),
          { id := freshReviewId s, rating := rating, comment := comment,
            created_at := s.clock, project_id := pid, reviewer_id := u.id,
            reviewee_id := ro.getD 0 }) := by
  simp [post_review, hfp, hfu, hst, hro, htr, hnodup]

/-- Inversion of a successful `post_review`: the checks all passed and the
result state and review row have the canonical shape. -/
theorem post_review_ok_inv (s : State) (aid pid : Nat) (rating : Int)
    (comment : Option String) (p : Project) (u : User) (s2 : State)
    (rv : Review)
    (hfp : findProject s pid = some p) (hfu : findUser s aid = some u)
    (hok : post_review s aid pid rating comment = .ok (s2, rv)) :
    ∃ ro, revieweeOf u.id p = some ro ∧ p.status = "completed" ∧
      pyTruthyOptNat ro = true ∧
      s.reviews.find? (fun r =>
        r.project_id == pid && r.reviewer_id == u.id) = none ∧
      rv = { id := freshReviewId s, rating := rating, comment := comment,
             created_at := s.clock, project_id := pid, reviewer_id := u.id,
             reviewee_id := ro.getD 0 } ∧
      s2 = update_user_ranking
        { s with reviews := s.reviews ++ [rv], clock := s.clock + 1 }
        (ro.getD 0) := by
  by_cases hst : p.status = "completed"
  case neg =>
    simp [post_review, hfp, hfu, bne_iff_ne, hst] at hok
  case pos =>
  cases hro : revieweeOf u.id p with
  | none =>
      simp [post_review, hfp, hfu, hst, hro] at hok
  | some ro =>
      by_cases htr : pyTruthyOptNat ro = true
      case neg =>
        simp [post_review, hfp, hfu, hst, hro,
          Bool.eq_false_iff.mpr htr] at hok
      case pos =>
      cases hfind : s.reviews.find? (fun r =>
          r.project_id == pid && r.reviewer_id == u.id) with
      | some r0 =>
          simp [post_review, hfp, hfu, hst, hro, htr, hfind] at hok
      | none =>
          refine ⟨ro, rfl, hst, htr, rfl, ?_⟩
          simp [post_review, hfp, hfu, hst, hro, htr, hfind] at hok
          obtain ⟨hs2, hrv⟩ := hok
          subst hrv
          exact ⟨rfl, hs2.symm⟩

/-- After `update_user_ranking`, the stored score of the target user is
the recomputed formula (over the unchanged review table). -/
theorem uur_score_after (s1 : State) (uid : Nat) :
    ∀ w, findUser (update_user_ranking s1 uid) uid = some w →
      w.ranking_score = rankingFormula (update_user_ranking s1 uid) uid := by
  intro w hw
  cases hu : findUser s1 uid with
  | none =>
      have hid : update_user_ranking s1 uid = s1 := by
        unfold update_user_ranking
        rw [hu]
      rw [hid, hu] at hw
      cases hw
  | some u0 =>
      have hfind := uur_findUser s1 uid u0 hu
      rw [hfind] at hw
      obtain rfl := Option.some.inj hw
      show rankingFormula s1 uid = rankingFormula (update_user_ranking s1 uid) uid
      exact (rankingFormula_congr _ _ uid (uur_reviews s1 uid)).symm

/-- Demo completed project owned by user 1 with freelancer user 2. -/
def dP2 : Project := { id := 2, title := "U", description := "done", budget := 50, status := "completed", created_at := 1, client_id := 1, freelancer_id := some 2 }

/-- Demo store with a completed project and no reviews yet. -/
def dS2 : State := { users := [dU1, dU2], projects := [dP2], clock := 3 }

/-- C7: with project and actor resolving, `post_review` fails with a 400
state error on a non-completed project; with a 403 authorization error
when the actor is neither the client nor the freelancer; with a 400
validation error when the actor is the client and no freelancer is
assigned; with the 400 duplicate error when the actor (a party) has
already reviewed the project; and on success it appends exactly the new
review row, whose reviewer is the actor and whose reviewee is the other
party, and synchronously recomputes the reviewee's stored ranking score.
-/
theorem C7_post_review_characterization
    (s : State) (aid pid : Nat) (rating : Int) (comment : Option String)
    (p : Project) (u : User)
    (hfp : findProject s pid = some p) (hfu : findUser s aid = some u) :
    (p.status ≠ "completed" →
      post_review s aid pid rating comment =
        .error (.badRequest "Project must be completed to leave a review")) ∧
    (p.status = "completed" → u.id ≠ p.client_id →
      some u.id ≠ p.freelancer_id →
      post_review s aid pid rating comment =
        .error (.forbidden "You are not part of this project")) ∧
    (p.status = "completed" → u.id = p.client_id →
      pyTruthyOptNat p.freelancer_id = false →
      post_review s aid pid rating comment =
        .error (.badRequest "Cannot review this project (no freelancer assigned)")) ∧
    (p.status = "completed" →
      ((u.id = p.client_id ∧ pyTruthyOptNat p.freelancer_id = true) ∨
       (u.id ≠ p.client_id ∧ some u.id = p.freelancer_id ∧ p.client_id ≠ 0)) →
      (∃ r ∈ s.reviews, r.project_id = pid ∧ r.reviewer_id = u.id) →
      post_review s aid pid rating comment =
        .error (.badRequest "You have already reviewed this project")) ∧
    (∀ s2 rv, post_review s aid pid rating comment = .ok (s2, rv) →
      p.status = "completed" ∧
      (u.id = p.client_id ∨ some u.id = p.freelancer_id) ∧
      rv.reviewer_id = u.id ∧ rv.rating = rating ∧ rv.project_id = pid ∧
      rv.reviewee_id =
        (if u.id = p.client_id then p.freelancer_id.getD 0 else p.client_id) ∧
      s2.reviews = s.reviews ++ [rv] ∧
      (∀ w, findUser s2 rv.reviewee_id = some w →
        w.ranking_score = rankingFormula s2 rv.reviewee_id)) := by
  refine ⟨?_, ?_, ?_, ?_, ?_⟩
  · intro hst
    simp [post_review, hfp, hfu, bne_iff_ne, hst]
  · intro hst hnc hnf
    simp [post_review, hfp, hfu, hst, revieweeOf, hnc, hnf]
  · intro hst hc hfalsy
    simp [post_review, hfp, hfu, hst, revieweeOf, hc, hfalsy]
  · intro hst hparty ⟨r, hr, hrp, hrr⟩
    rcases hparty with ⟨hc, htr⟩ | ⟨hc, hf, h0⟩
    · have hdup3 : ∃ x ∈ s.reviews, x.project_id = pid ∧
          x.reviewer_id = p.client_id := ⟨r, hr, hrp, hrr.trans hc⟩
      simp [post_review, hfp, hfu, hst, revieweeOf, hc, htr, hdup3]
    · have hdup2 : ∃ x ∈ s.reviews, x.project_id = pid ∧
          x.reviewer_id = u.id := ⟨r, hr, hrp, hrr⟩
      have htr : pyTruthyOptNat (some p.client_id) = true := by
        simp [pyTruthyOptNat, h0]
      simp [post_review, hfp, hfu, hst, revieweeOf, hc, hf, htr, hdup2]
  · intro s2 rv hok
    obtain ⟨ro, hro, hst, htr, hnodup, hrv, hs2⟩ :=
      post_review_ok_inv s aid pid rating comment p u s2 rv hfp hfu hok
    rcases revieweeOf_some_cases u.id p ro hro with ⟨hc, hrof⟩ | ⟨hc, hf, hroc⟩
    · subst hrv
      subst hs2
      refine ⟨hst, Or.inl hc, rfl, rfl, rfl, ?_, ?_, ?_⟩
      · rw [if_pos hc, hrof]
      · rw [uur_reviews]
      · exact uur_score_after _ _
    · subst hrv
      subst hs2
      refine ⟨hst, Or.inr hf, rfl, rfl, rfl, ?_, ?_, ?_⟩
      · rw [if_neg hc, hroc]
        rfl
      · rw [uur_reviews]
      · exact uur_score_after _ _

/-- C7 witness: on the demo store, reviewing the still-open project 1
fails with the state error. -/
theorem C7_post_review_characterization_witness :
    findProject dS 1 = some dP1 ∧ findUser dS 1 = some dU1 ∧
    post_review dS 1 1 5 none =
      .error (.badRequest "Project must be completed to leave a review") :=
  ⟨rfl, rfl,
    (C7_post_review_characterization dS 1 1 5 none dP1 dU1 rfl rfl).1
      (by decide)⟩

/-- C1: immediately after any successful `post_review`, the reviewee's
stored `ranking_score` equals the mean of the ratings of all review rows
whose reviewee is that user, rounded to 2 decimals (`rankingFormula`,
which returns `0.0` when there are no such rows). -/
theorem C1_ranking_score_after_post_review
    (s s2 : State) (aid pid : Nat) (rating : Int) (comment : Option String)
    (rv : Review) (p : Project) (u w : User)
    (hfp : findProject s pid = some p) (hfu : findUser s aid = some u)
    (hok : post_review s aid pid rating comment = .ok (s2, rv))
    (hw : findUser s2 rv.reviewee_id = some w) :
    w.ranking_score = rankingFormula s2 rv.reviewee_id := by
  obtain ⟨ro, hro, hst, htr, hnodup, hrv, hs2⟩ :=
    post_review_ok_inv s aid pid rating comment p u s2 rv hfp hfu hok
  subst hrv
  subst hs2
  exact uur_score_after _ _ w hw

/-- Concrete review row produced by the C1 witness run. -/
def dRv : Review := { id := 1, rating := 4, comment := none, created_at := 3, project_id := 2, reviewer_id := 1, reviewee_id := 2 }

/-- Demo freelancer after receiving one rating of 4. -/
def dU2r : User := { id := 2, username := "bob", email := "b@x", password_hash := "h2", is_freelancer := true, ranking_score := 4 }

/-- Store after the C1 witness run: review appended, score recomputed. -/
def dS2r : State := { users := [dU1, dU2r], projects := [dP2], reviews := [dRv], clock := 4 }

/-- C1 witness: client 1 reviews freelancer 2 with rating 4 on the
completed demo project; afterwards the stored score is the recomputed
mean. -/
theorem C1_ranking_score_after_post_review_witness :
    findProject dS2 2 = some dP2 ∧ findUser dS2 1 = some dU1 ∧
    post_review dS2 1 2 4 none = .ok (dS2r, dRv) ∧
    findUser dS2r dRv.reviewee_id = some dU2r ∧
    dU2r.ranking_score = rankingFormula dS2r dRv.reviewee_id :=
  ⟨rfl, rfl, by decide, by decide,
    C1_ranking_score_after_post_review dS2 dS2r 1 2 4 none dRv dP2 dU1 dU2r
      rfl rfl (by decide) (by decide)⟩

/-- Translating the application-level "no existing bid" pre-check into the
query result of `place_bid`. -/
theorem bids_find?_none (s : State) (pid uid : Nat)
    (h : ∀ b ∈ s.bids, ¬(b.project_id = pid ∧ b.freelancer_id = uid)) :
    s.bids.find? (fun b => b.project_id == pid && b.freelancer_id == uid) = none := by
  rw [List.find?_eq_none]
  intro x hx
  simp only [Bool.and_eq_true, beq_iff_eq, not_and]
  intro h1 h2
  exact h x hx ⟨h1, h2⟩

/-- Translating the application-level "no existing review" pre-check into
the query result of `post_review`. -/
theorem reviews_find?_none (s : State) (pid uid : Nat)
    (h : ∀ r ∈ s.reviews, ¬(r.project_id = pid ∧ r.reviewer_id = uid)) :
    s.reviews.find? (fun r => r.project_id == pid && r.reviewer_id == uid) = none := by
  rw [List.find?_eq_none]
  intro x hx
  simp only [Bool.and_eq_true, beq_iff_eq, not_and]
  intro h1 h2
  exact h x hx ⟨h1, h2⟩

/-- The success equation of `place_bid`: when every check passes, exactly
one new bid row owned by the actor is appended. -/
theorem place_bid_ok_eq (s : State) (aid pid : Nat) (amount : ℚ)
    (proposal : String) (p : Project) (u : User)
    (hfu : findUser s aid = some u) (hfp : findProject s pid = some p)
    (hfree : u.is_freelancer = true) (hopen : p.status = "open")
    (hnob : ∀ b ∈ s.bids, ¬(b.project_id = pid ∧ b.freelancer_id = u.id)) :
    place_bid s aid pid amount proposal =
      .ok ({ s with
               bids := s.bids ++
                 [{ id := freshBidId s, amount := amount,
                    proposal := proposal, created_at := s.clock,
                    project_id := pid, freelancer_id := u.id }],
               clock := s.clock + 1 },
           { id := freshBidId s, amount := amount, proposal := proposal,
             created_at := s.clock, project_id := pid,
             freelancer_id := u.id }) := by
  have hnone := bids_find?_none s pid u.id hnob
  simp [place_bid, hfu, hfp, hfree, hopen, hnone]

/-- The success equation of `accept_bid`: when every check passes, the
project row is rewritten with the bid's freelancer and status
`"in_progress"`. -/
theorem accept_bid_ok_eq (s : State) (aid pid bid_id : Nat)
    (p : Project) (u : User) (b : Bid)
    (hfp : findProject s pid = some p) (hfu : findUser s aid = some u)
    (hfb : findBid s bid_id = some b)
    (hc : p.client_id = u.id) (hopen : p.status = "open")
    (hbp : b.project_id = p.id) :
    accept_bid s aid pid bid_id =
      .ok (setProject s pid
            { p with freelancer_id := some b.freelancer_id,
                     status := "in_progress" },
          { p with freelancer_id := some b.freelancer_id,
                   status := "in_progress" }) := by
  simp [accept_bid, hfp, hfu, hfb, hc, hopen, hbp]

/-- The success equation of `update_project`: for the client every call
succeeds and rewrites exactly the supplied fields. -/
theorem update_project_ok_eq (s : State) (aid pid : Nat)
    (title description : Option String) (budget : Option ℚ)
    (status : Option String) (p : Project) (u : User)
    (hfp : findProject s pid = some p) (hfu : findUser s aid = some u)
    (hc : p.client_id = u.id) :
    update_project s aid pid title description budget status =
      .ok (setProject s pid
            { p with title := title.getD p.title,
                     description := description.getD p.description,
                     budget := budget.getD p.budget,
                     status := status.getD p.status },
          { p with title := title.getD p.title,
                   description := description.getD p.description,
                   budget := budget.getD p.budget,
                   status := status.getD p.status }) := by
  simp [update_project, hfp, hfu, hc]

/-- C8: with actor and project resolving, `place_bid` fails with a 403
when the actor is not a freelancer, with a 400 state error when the
project is not open, and with the 400 duplicate error whenever the actor
already has a bid on this project; it succeeds exactly when the actor is a
freelancer, the project is open and no such bid exists, in which case the
new bid row owned by the actor, with the given amount and proposal, is
appended. -/
theorem C8_place_bid_characterization
    (s : State) (aid pid : Nat) (amount : ℚ) (proposal : String)
    (p : Project) (u : User)
    (hfu : findUser s aid = some u) (hfp : findProject s pid = some p) :
    (u.is_freelancer = false →
      place_bid s aid pid amount proposal =
        .error (.forbidden "Only freelancers can bid")) ∧
    (u.is_freelancer = true → p.status ≠ "open" →
      place_bid s aid pid amount proposal =
        .error (.badRequest "Project is not open for bidding")) ∧
    (u.is_freelancer = true → p.status = "open" →
      (∃ b ∈ s.bids, b.project_id = pid ∧ b.freelancer_id = u.id) →
      place_bid s aid pid amount proposal =
        .error (.badRequest "You have already placed a bid on this project")) ∧
    (u.is_freelancer = true → p.status = "open" →
      (∀ b ∈ s.bids, ¬(b.project_id = pid ∧ b.freelancer_id = u.id)) →
      place_bid s aid pid amount proposal =
        .ok ({ s with
                 bids := s.bids ++
                   [{ id := freshBidId s, amount := amount,
                      proposal := proposal, created_at := s.clock,
                      project_id := pid, freelancer_id := u.id }],
                 clock := s.clock + 1 },
             { id := freshBidId s, amount := amount, proposal := proposal,
               created_at := s.clock, project_id := pid,
               freelancer_id := u.id })) ∧
    ((∃ s2 out, place_bid s aid pid amount proposal = .ok (s2, out)) ↔
      (u.is_freelancer = true ∧ p.status = "open" ∧
        ∀ b ∈ s.bids, ¬(b.project_id = pid ∧ b.freelancer_id = u.id))) := by
  have e1 : u.is_freelancer = false →
      place_bid s aid pid amount proposal =
        .error (.forbidden "Only freelancers can bid") := by
    intro hfree
    simp [place_bid, hfu, hfp, hfree]
  have e2 : u.is_freelancer = true → p.status ≠ "open" →
      place_bid s aid pid amount proposal =
        .error (.badRequest "Project is not open for bidding") := by
    intro hfree hst
    simp [place_bid, hfu, hfp, hfree, bne_iff_ne, hst]
  have e3 : u.is_freelancer = true → p.status = "open" →
      (∃ b ∈ s.bids, b.project_id = pid ∧ b.freelancer_id = u.id) →
      place_bid s aid pid amount proposal =
        .error (.badRequest "You have already placed a bid on this project") := by
    intro hfree hst hdup
    simp [place_bid, hfu, hfp, hfree, hst, hdup]
  have e4 := fun hfree hst hnob =>
    place_bid_ok_eq s aid pid amount proposal p u hfu hfp hfree hst hnob
  refine ⟨e1, e2, e3, e4, ?_⟩
  constructor
  · rintro ⟨s2, out, hok⟩
    by_cases h1 : u.is_freelancer = true
    · by_cases h2 : p.status = "open"
      · by_cases h3 : ∀ b ∈ s.bids, ¬(b.project_id = pid ∧ b.freelancer_id = u.id)
        · exact ⟨h1, h2, h3⟩
        · push_neg at h3
          obtain ⟨b, hb, hbp, hbf⟩ := h3
          rw [e3 h1 h2 ⟨b, hb, hbp, hbf⟩] at hok
          exact Except.noConfusion hok
      · rw [e2 h1 h2] at hok
        exact Except.noConfusion hok
    · rw [e1 (Bool.eq_false_iff.mpr h1)] at hok
      exact Except.noConfusion hok
  · rintro ⟨h1, h2, h3⟩
    exact ⟨_, _, e4 h1 h2 h3⟩

/-- C8 witness: the characterization applied to the demo store, where
freelancer 2 already has a bid on open project 1, so a second bid by
freelancer 2 fails as duplicate. -/
theorem C8_place_bid_characterization_witness :
    findUser dS 2 = some dU2 ∧ findProject dS 1 = some dP1 ∧
    place_bid dS 2 1 80 "again" =
      .error (.badRequest "You have already placed a bid on this project") :=
  ⟨rfl, rfl,
    (C8_place_bid_characterization dS 2 1 80 "again" dP1 dU2 rfl rfl).2.2.1
      rfl rfl ⟨dB1, by decide, by decide, by decide⟩⟩

/-- C10: `place_bid` never compares the actor with the project's client.
Any freelancer who owns an open project (and has no bid or review on it
yet) can bid on their own project, accept their own bid, set the project
to completed, and post a review whose reviewer and reviewee are both
themselves. -/
theorem C10_self_dealing_chain
    (s : State) (pid : Nat) (u : User) (p : Project)
    (amount : ℚ) (proposal : String) (rating : Int)
    (hfu : findUser s u.id = some u) (hfp : findProject s pid = some p)
    (hfree : u.is_freelancer = true) (hclient : p.client_id = u.id)
    (hopen : p.status = "open") (hid : u.id ≠ 0)
    (hnob : ∀ b ∈ s.bids, ¬(b.project_id = pid ∧ b.freelancer_id = u.id))
    (hnor : ∀ r ∈ s.reviews, ¬(r.project_id = pid ∧ r.reviewer_id = u.id)) :
    ∃ s1 b s2 p2 s3 p3 s4 rv,
      place_bid s u.id pid amount proposal = .ok (s1, b) ∧
      b.freelancer_id = u.id ∧
      accept_bid s1 u.id pid b.id = .ok (s2, p2) ∧
      p2.status = "in_progress" ∧ p2.freelancer_id = some u.id ∧
      update_project s2 u.id pid none none none (some "completed") =
        .ok (s3, p3) ∧
      p3.status = "completed" ∧
      post_review s3 u.id pid rating none = .ok (s4, rv) ∧
      rv.reviewer_id = u.id ∧ rv.reviewee_id = u.id := by
  have hpid : p.id = pid := by
    have := List.find?_some hfp
    simpa using this
  -- step 1: bid on the own project
  set b0 : Bid :=
    { id := freshBidId s, amount := amount, proposal := proposal,
      created_at := s.clock, project_id := pid, freelancer_id := u.id } with hb0
  set s1 : State :=
    { s with bids := s.bids ++ [b0], clock := s.clock + 1 } with hs1
  have h1 : place_bid s u.id pid amount proposal = .ok (s1, b0) :=
    place_bid_ok_eq s u.id pid amount proposal p u hfu hfp hfree hopen hnob
  -- step 2: accept the own bid
  have hfu1 : findUser s1 u.id = some u := hfu
  have hfp1 : findProject s1 pid = some p := hfp
  have hfb1 : findBid s1 b0.id = some b0 := findBid_append_fresh s b0 rfl
  set p2 : Project :=
    { p with freelancer_id := some b0.freelancer_id,
             status := "in_progress" } with hp2
  set s2 : State := setProject s1 pid p2 with hs2
  have h2 : accept_bid s1 u.id pid b0.id = .ok (s2, p2) :=
    accept_bid_ok_eq s1 u.id pid b0.id p u b0 hfp1 hfu1 hfb1 hclient hopen
      (by rw [hpid])
  -- step 3: the client sets the status to completed
  have hfu2 : findUser s2 u.id = some u := hfu
  have hfp2 : findProject s2 pid = some p2 :=
    findProject_setProject s1 pid p2 p hfp1 rfl
  set p3 : Project :=
    { p2 with title := (none : Option String).getD p2.title,
              description := (none : Option String).getD p2.description,
              budget := (none : Option ℚ).getD p2.budget,
              status := (some "completed").getD p2.status } with hp3
  set s3 : State := setProject s2 pid p3 with hs3
  have h3 : update_project s2 u.id pid none none none (some "completed") =
      .ok (s3, p3) :=
    update_project_ok_eq s2 u.id pid none none none (some "completed") p2 u
      hfp2 hfu2 hclient
  -- step 4: self-review
  have hfu3 : findUser s3 u.id = some u := hfu
  have hfp3 : findProject s3 pid = some p3 :=
    findProject_setProject s2 pid p3 p2 hfp2 rfl
  have hst3 : p3.status = "completed" := rfl
  have hro : revieweeOf u.id p3 = some (some u.id) := by
    have hcb : (u.id == p3.client_id) = true := by
      show (u.id == p.client_id) = true
      simp [hclient]
    unfold revieweeOf
    rw [if_pos hcb]
  have htr : pyTruthyOptNat (some u.id) = true := by
    simp [pyTruthyOptNat, hid]
  have hnodup : s3.reviews.find? (fun r =>
      r.project_id == pid && r.reviewer_id == u.id) = none :=
    reviews_find?_none s3 pid u.id (by
      have hrev : s3.reviews = s.reviews := rfl
      rw [hrev]
      exact hnor)
  have h4 := post_review_ok_eq s3 u.id pid rating none p3 u (some u.id)
    hfp3 hfu3 hst3 hro htr hnodup
  refine ⟨s1, b0, s2, p2, s3, p3, _, _, h1, rfl, h2, rfl, rfl, h3, rfl,
    h4, rfl, rfl⟩

/-- Demo user who is both a freelancer and a client. -/
def dU3 : User := { id := 3, username := "eve", email := "e@x", password_hash := "h3", is_freelancer := true }

/-- Demo open project owned by the freelancer-client dU3. -/
def dP3 : Project := { id := 3, title := "S", description := "d", budget := 10, created_at := 0, client_id := 3 }

/-- Demo store for the self-dealing scenario. -/
def dS3 : State := { users := [dU3], projects := [dP3], clock := 1 }

/-- C10 witness: the freelancer-client 3 runs the whole self-dealing chain
on their own project in the demo store. -/
theorem C10_self_dealing_chain_witness :
    findUser dS3 3 = some dU3 ∧ findProject dS3 3 = some dP3 ∧
    dU3.is_freelancer = true ∧ dP3.client_id = dU3.id ∧
    dP3.status = "open" ∧
    (∃ s1 b s2 p2 s3 p3 s4 rv,
      place_bid dS3 dU3.id 3 5 "me" = .ok (s1, b) ∧
      b.freelancer_id = dU3.id ∧
      accept_bid s1 dU3.id 3 b.id = .ok (s2, p2) ∧
      p2.status = "in_progress" ∧ p2.freelancer_id = some dU3.id ∧
      update_project s2 dU3.id 3 none none none (some "completed") =
        .ok (s3, p3) ∧
      p3.status = "completed" ∧
      post_review s3 dU3.id 3 5 none = .ok (s4, rv) ∧
      rv.reviewer_id = dU3.id ∧ rv.reviewee_id = dU3.id) :=
  ⟨rfl, rfl, rfl, rfl, rfl,
    C10_self_dealing_chain dS3 3 dU3 dP3 5 "me" 5 rfl rfl rfl rfl rfl
      (by decide) (by decide) (by decide)⟩

/-- Output shape of `UserPublicSchema` (schemas.py): the minimal public
projection `(id, username, is_freelancer, ranking_score)` used for nested
client/freelancer/reviewer/reviewee output. -/
structure UserPublicDump where
  id : Nat
  username : String
  is_freelancer : Bool
  ranking_score : ℚ
  deriving DecidableEq, Repr

/-- `UserPublicSchema.dump`. -/
def userPublicDump (u : User) : UserPublicDump :=
  { id := u.id, username := u.username, is_freelancer := u.is_freelancer,
    ranking_score := u.ranking_score }

/-- Output shape of `ReviewSchema` (schemas.py): every Review column
(`include_fk = True`) plus the nested public reviewer and reviewee. -/
structure ReviewDump where
  id : Nat
  rating : Int
  comment : Option String
  created_at : Nat
  project_id : Nat
  reviewer_id : Nat
  reviewee_id : Nat
  reviewer : Option UserPublicDump
  reviewee : Option UserPublicDump
  deriving DecidableEq, Repr

/-- `ReviewSchema.dump`: the nested users are resolved through the store's
relationships. -/
def reviewDump (s : State) (r : Review) : ReviewDump :=
  { id := r.id, rating := r.rating, comment := r.comment,
    created_at := r.created_at, project_id := r.project_id,
    reviewer_id := r.reviewer_id, reviewee_id := r.reviewee_id,
    reviewer := (findUser s r.reviewer_id).map userPublicDump,
    reviewee := (findUser s r.reviewee_id).map userPublicDump }

/-- Output shape of `UserSchema` (schemas.py): every User column except
the excluded `password_hash` (the write-only `password` field is
load-only and never dumped), plus the nested `reviews_received`. -/
structure UserDump where
  id : Nat
  username : String
  email : String
  is_freelancer : Bool
  bio : Option String
  skills : Option String
  ranking_score : ℚ
  reviews_received : List ReviewDump
  deriving DecidableEq, Repr

/-- `UserSchema.dump`. -/
def userDump (s : State) (u : User) : UserDump :=
  { id := u.id, username := u.username, email := u.email,
    is_freelancer := u.is_freelancer, bio := u.bio, skills := u.skills,
    ranking_score := u.ranking_score,
    reviews_received :=
      (s.reviews.filter (fun r => r.reviewee_id == u.id)).map (reviewDump s) }

/-- Rewriting every stored credential digest (an arbitrary per-user
substitution), to state that dumps cannot depend on digests. -/
def scrubHashes (s : State) (f : Nat → String) : State :=
  { s with users := s.users.map (fun u => { u with password_hash := f u.id }) }

theorem findUser_scrubHashes (s : State) (f : Nat → String) (uid : Nat) :
    findUser (scrubHashes s f) uid =
      (findUser s uid).map (fun v => { v with password_hash := f v.id }) :=
  find?_map_of_pred_comm s.users _ _ (fun _ => rfl)

theorem reviewDump_scrubHashes (s : State) (f : Nat → String) (r : Review) :
    reviewDump (scrubHashes s f) r = reviewDump s r := by
  unfold reviewDump
  rw [findUser_scrubHashes, findUser_scrubHashes]
  cases findUser s r.reviewer_id <;> cases findUser s r.reviewee_id <;> rfl

/-- C9: serialized user output never depends on the credential digest.
Changing a user's `password_hash` (and, for the nested reviews, every
stored digest) leaves both the full `UserSchema` dump and the minimal
`UserPublicSchema` projection literally identical — neither output shape
even has a digest field. -/
theorem C9_user_dumps_omit_credential_digest
    (s : State) (f : Nat → String) (u : User) (h : String) :
    userPublicDump { u with password_hash := h } = userPublicDump u ∧
    userDump (scrubHashes s f) { u with password_hash := h } = userDump s u := by
  constructor
  · rfl
  · unfold userDump
    simp only [scrubHashes]
    congr 1
    exact List.map_congr_left (fun r _ => reviewDump_scrubHashes s f r)

/-- The spec §3 project invariant: `freelancer` is set iff the status is
`in_progress` or `completed`. -/
def projInvariant (p : Project) : Prop :=
  p.freelancer_id.isSome = true ↔
    (p.status = "in_progress" ∨ p.status = "completed")

instance (p : Project) : Decidable (projInvariant p) := by
  unfold projInvariant
  infer_instance

/-- Inversion of a successful `create_project`: the new row is open with
no freelancer and is simply appended. -/
theorem create_project_ok_inv (s : State) (aid : Nat) (t d : String)
    (bud : ℚ) (s2 : State) (pnew : Project)
    (hok : create_project s aid t d bud = .ok (s2, pnew)) :
    pnew.status = "open" ∧ pnew.freelancer_id = none ∧
    s2.projects = s.projects ++ [pnew] := by
  cases hfu : findUser s aid with
  | none => simp [create_project, hfu] at hok
  | some u =>
      simp [create_project, hfu] at hok
      obtain ⟨hs2, hp⟩ := hok
      subst hp
      subst hs2
      exact ⟨rfl, rfl, rfl⟩

/-- Inversion of a successful `accept_bid`: all checks passed and the
result state replaces only the accepted project's row. -/
theorem accept_bid_ok_inv (s : State) (aid pid bid_id : Nat) (s2 : State)
    (p2 : Project) (hok : accept_bid s aid pid bid_id = .ok (s2, p2)) :
    ∃ p u b, findProject s pid = some p ∧ findUser s aid = some u ∧
      findBid s bid_id = some b ∧ p.client_id = u.id ∧ p.status = "open" ∧
      b.project_id = p.id ∧
      p2 = { p with freelancer_id := some b.freelancer_id,
                    status := "in_progress" } ∧
      s2 = setProject s pid p2 := by
  cases hfp : findProject s pid with
  | none => simp [accept_bid, hfp] at hok
  | some p =>
  cases hfu : findUser s aid with
  | none => simp [accept_bid, hfp, hfu] at hok
  | some u =>
  by_cases hc : p.client_id = u.id
  case neg => simp [accept_bid, hfp, hfu, bne_iff_ne, hc] at hok
  case pos =>
  by_cases hst : p.status = "open"
  case neg => simp [accept_bid, hfp, hfu, bne_iff_ne, hc, hst] at hok
  case pos =>
  cases hfb : findBid s bid_id with
  | none => simp [accept_bid, hfp, hfu, bne_iff_ne, hc, hst, hfb] at hok
  | some b =>
  by_cases hbp : b.project_id = p.id
  case neg =>
    simp [accept_bid, hfp, hfu, bne_iff_ne, hc, hst, hfb, hbp] at hok
  case pos =>
    simp [accept_bid, hfp, hfu, bne_iff_ne, hc, hst, hfb, hbp] at hok
    obtain ⟨hs2, hp2⟩ := hok
    subst hp2
    exact ⟨p, u, b, rfl, rfl, rfl, hc, hst, hbp, by rw [hc], hs2.symm⟩

/-- Base store for the C3 counterexample: one registered client. -/
def c3S0 : State := { users := [dU1] }

/-- Project created from `c3S0`. -/
def c3P1 : Project := { id := 1, title := "t", description := "d", budget := 10, created_at := 0, client_id := 1 }

/-- Store after creating the project. -/
def c3S1 : State := { users := [dU1], projects := [c3P1], clock := 1 }

/-- The same project after the client writes `status := "completed"`
directly through `update_project` — no freelancer was ever assigned. -/
def c3P2 : Project := { id := 1, title := "t", description := "d", budget := 10, status := "completed", created_at := 0, client_id := 1 }

/-- Store after the direct status write. -/
def c3S2 : State := { users := [dU1], projects := [c3P2], clock := 1 }

/-- C3 counterexample: a client creates a project and immediately sets its
status to `"completed"` through `update_project`; the stored project then
has `status = "completed"` with `freelancer_id = none`, so the claimed
invariant fails in a state reachable by the defined operations. -/
theorem C3_counterexample_update_project_breaks_invariant :
    create_project c3S0 1 "t" "d" 10 = .ok (c3S1, c3P1) ∧
    update_project c3S1 1 1 none none none (some "completed") =
      .ok (c3S2, c3P2) ∧
    findProject c3S2 1 = some c3P2 ∧
    c3P2.status = "completed" ∧ c3P2.freelancer_id = none ∧
    ¬ projInvariant c3P2 := by
  refine ⟨by decide, by decide, by decide, rfl, rfl, by decide⟩

/-- C3 (amended): `create_project` and `accept_bid` do preserve the
"freelancer set iff in_progress/completed" invariant — a created project
is open with no freelancer, and an accepted one gets a freelancer together
with status `"in_progress"` — but `update_project` accepts a free-form
status write and can break the invariant. -/
theorem C3_invariant_preserved_by_create_and_accept (s : State) :
    (∀ aid t d bud s2 pnew,
      create_project s aid t d bud = .ok (s2, pnew) →
      (∀ q ∈ s.projects, projInvariant q) →
      (∀ q ∈ s2.projects, projInvariant q)) ∧
    (∀ aid pid bid_id s2 p2,
      accept_bid s aid pid bid_id = .ok (s2, p2) →
      (∀ q ∈ s.projects, projInvariant q) →
      (∀ q ∈ s2.projects, projInvariant q)) := by
  constructor
  · intro aid t d bud s2 pnew hok hinv
    obtain ⟨hst, hfl, hproj⟩ :=
      create_project_ok_inv s aid t d bud s2 pnew hok
    intro q hq
    rw [hproj] at hq
    rcases List.mem_append.mp hq with hq | hq
    · exact hinv q hq
    · have : q = pnew := List.mem_singleton.mp hq
      subst this
      unfold projInvariant
      rw [hst, hfl]
      simp
  · intro aid pid bid_id s2 p2 hok hinv
    obtain ⟨p, u, b, hfp, hfu, hfb, hc, hst, hbp, hp2, hs2⟩ :=
      accept_bid_ok_inv s aid pid bid_id s2 p2 hok
    intro q hq
    rw [hs2] at hq
    unfold setProject at hq
    simp only [List.mem_map] at hq
    obtain ⟨q0, hq0, hq0eq⟩ := hq
    by_cases hcase : (q0.id == pid) = true
    · rw [if_pos hcase] at hq0eq
      subst hq0eq
      subst hp2
      unfold projInvariant
      simp
    · rw [if_neg hcase] at hq0eq
      subst hq0eq
      exact hinv q0 hq0

/-- Store after `accept_bid` in the C3 witness: bid 1 accepted on project
1, freelancer 2 assigned, status `"in_progress"`. -/
def dSacc : State := { users := [dU1, dU2], projects := [{ dP1 with freelancer_id := some 2, status := "in_progress" }], bids := [dB1], clock := 2 }

/-- C3 witness: on the demo store every project satisfies the invariant,
and it still does after client 1 accepts bid 1. -/
theorem C3_invariant_preserved_witness :
    (∀ q ∈ dS.projects, projInvariant q) ∧
    accept_bid dS 1 1 1 =
      .ok (dSacc, { dP1 with freelancer_id := some 2,
                             status := "in_progress" }) ∧
    (∀ q ∈ dSacc.projects, projInvariant q) :=
  ⟨by decide, by decide,
    (C3_invariant_preserved_by_create_and_accept dS).2 1 1 1 dSacc
      { dP1 with freelancer_id := some 2, status := "in_progress" }
      (by decide) (by decide)⟩

/-- Exactly the constraints models.py declares at the storage boundary:
primary keys (`Nodup` ids), `unique=True` on username and email, NOT NULL
encoded by the field types, and the declared foreign keys.  The Bid and
Review tables declare no unique constraint on `(project_id,
freelancer_id)` or `(project_id, reviewer_id)`. -/
def storageOk (s : State) : Prop :=
  (s.users.map (fun u => u.id)).Nodup ∧
  (s.users.map (fun u => u.username)).Nodup ∧
  (s.users.map (fun u => u.email)).Nodup ∧
  (s.projects.map (fun p => p.id)).Nodup ∧
  (s.bids.map (fun b => b.id)).Nodup ∧
  (s.reviews.map (fun r => r.id)).Nodup ∧
  (∀ p ∈ s.projects, (∃ u ∈ s.users, u.id = p.client_id) ∧
    (∀ fid ∈ p.freelancer_id.toList, ∃ u ∈ s.users, u.id = fid)) ∧
  (∀ b ∈ s.bids, (∃ p ∈ s.projects, p.id = b.project_id) ∧
    (∃ u ∈ s.users, u.id = b.freelancer_id)) ∧
  (∀ r ∈ s.reviews, (∃ p ∈ s.projects, p.id = r.project_id) ∧
    (∃ u ∈ s.users, u.id = r.reviewer_id) ∧
    (∃ u ∈ s.users, u.id = r.reviewee_id))

instance (s : State) : Decidable (storageOk s) := by
  unfold storageOk
  infer_instance

/-- Freelancer-client used in the C2 counterexample store. -/
def c2U : User := { id := 1, username := "a", email := "a@x", password_hash := "h", is_freelancer := true }

/-- Open project of the C2 counterexample store. -/
def c2P : Project := { id := 1, title := "t", description := "d", budget := 1, status := "open", created_at := 0, client_id := 1, freelancer_id := some 1 }

/-- First bid of the duplicate (project, freelancer) pair. -/
def c2B1 : Bid := { id := 1, amount := 1, proposal := "x", created_at := 0, project_id := 1, freelancer_id := 1 }

/-- Second bid with the same (project, freelancer) pair. -/
def c2B2 : Bid := { id := 2, amount := 2, proposal := "y", created_at := 1, project_id := 1, freelancer_id := 1 }

/-- First review of the duplicate (project, reviewer) pair. -/
def c2R1 : Review := { id := 1, rating := 5, created_at := 0, project_id := 1, reviewer_id := 1, reviewee_id := 1 }

/-- Second review with the same (project, reviewer) pair. -/
def c2R2 : Review := { id := 2, rating := 4, created_at := 1, project_id := 1, reviewer_id := 1, reviewee_id := 1 }

/-- Store holding both duplicate pairs while satisfying every declared
constraint. -/
def c2S : State := { users := [c2U], projects := [c2P], bids := [c2B1, c2B2], reviews := [c2R1, c2R2], clock := 2 }

/-- C2 counterexample: a store satisfying every constraint models.py
declares can hold two distinct bid rows with the same (project,
freelancer) pair and two distinct review rows with the same (project,
reviewer) pair — the tables carry no unique constraints on those pairs,
so the storage boundary does not enforce the claimed uniqueness. -/
theorem C2_counterexample_no_pair_constraints :
    storageOk c2S ∧
    c2B1 ∈ c2S.bids ∧ c2B2 ∈ c2S.bids ∧
    c2B1.project_id = c2B2.project_id ∧
    c2B1.freelancer_id = c2B2.freelancer_id ∧ c2B1.id ≠ c2B2.id ∧
    c2R1 ∈ c2S.reviews ∧ c2R2 ∈ c2S.reviews ∧
    c2R1.project_id = c2R2.project_id ∧
    c2R1.reviewer_id = c2R2.reviewer_id ∧ c2R1.id ≠ c2R2.id := by
  decide

/-- C2 (amended): the storage boundary does enforce uniqueness of
username and email (and of primary keys), but per-(project,freelancer)
bid uniqueness and per-(project,reviewer) review uniqueness are enforced
only by the application-level pre-checks inside `place_bid` and
`post_review`, which reject a duplicate present in the store at the time
of the check. -/
theorem C2_storage_vs_application_uniqueness (s : State)
    (h : storageOk s) :
    (∀ u1 ∈ s.users, ∀ u2 ∈ s.users, u1.username = u2.username → u1 = u2) ∧
    (∀ u1 ∈ s.users, ∀ u2 ∈ s.users, u1.email = u2.email → u1 = u2) ∧
    (∀ aid pid amount proposal p u,
      findUser s aid = some u → findProject s pid = some p →
      u.is_freelancer = true → p.status = "open" →
      (∃ b ∈ s.bids, b.project_id = pid ∧ b.freelancer_id = u.id) →
      place_bid s aid pid amount proposal =
        .error (.badRequest "You have already placed a bid on this project")) ∧
    (∀ aid pid rating comment p u,
      findProject s pid = some p → findUser s aid = some u →
      p.status = "completed" → u.id = p.client_id →
      (∃ r ∈ s.reviews, r.project_id = pid ∧ r.reviewer_id = u.id) →
      post_review s aid pid rating comment =
        .error (.badRequest "You have already reviewed this project") ∨
      post_review s aid pid rating comment =
        .error (.badRequest "Cannot review this project (no freelancer assigned)")) := by
  refine ⟨?_, ?_, ?_, ?_⟩
  · intro u1 h1 u2 h2 heq
    exact List.inj_on_of_nodup_map h.2.1 h1 h2 heq
  · intro u1 h1 u2 h2 heq
    exact List.inj_on_of_nodup_map h.2.2.1 h1 h2 heq
  · intro aid pid amount proposal p u hfu hfp hfree hst hdup
    simp [place_bid, hfu, hfp, hfree, hst, hdup]
  · intro aid pid rating comment p u hfp hfu hst hc ⟨r, hr, hrp, hrr⟩
    have hdup3 : ∃ x ∈ s.reviews, x.project_id = pid ∧
        x.reviewer_id = p.client_id := ⟨r, hr, hrp, hrr.trans hc⟩
    by_cases htr : pyTruthyOptNat p.freelancer_id = true
    · left
      simp [post_review, hfp, hfu, hst, revieweeOf, hc, htr, hdup3]
    · right
      simp [post_review, hfp, hfu, hst, revieweeOf, hc,
        Bool.eq_false_iff.mpr htr]

/-- C2 witness: the amended statement applied to the counterexample
store, where a second bid by freelancer 1 on project 1 is rejected by the
application-level pre-check. -/
theorem C2_storage_vs_application_uniqueness_witness :
    storageOk c2S ∧
    place_bid c2S 1 1 3 "z" =
      .error (.badRequest "You have already placed a bid on this project") :=
  ⟨by decide,
    (C2_storage_vs_application_uniqueness c2S (by decide)).2.2.1 1 1 3 "z"
      c2P c2U rfl rfl rfl rfl ⟨c2B1, by decide, rfl, rfl⟩⟩

/-- Case-insensitive prefix test over characters. -/
def startsCI : List Char → List Char → Bool
  | [], _ => true
  | _ :: _, [] => false
  | p :: ps, c :: s2 => charEqCI p c && startsCI ps s2

/-- Follows the spec's words — "projects whose description contains the
filter string as a case-insensitive substring" — for comparison with the
code's `LIKE` filter: `q` occurs in `s` as a case-insensitive substring.
-/
def substrCI (q s : List Char) : Bool := anySuffix (startsCI q) s

/-- The filter string contains no `LIKE` metacharacter. -/
def noWild (q : List Char) : Bool := q.all (fun c => c != '%' && c != '_')

theorem anySuffix_congr (f g : List Char → Bool) (h : ∀ t, f t = g t) :
    ∀ s, anySuffix f s = anySuffix g s := by
  intro s
  induction s with
  | nil => simp [anySuffix, h]
  | cons c s2 ih => simp [anySuffix, h, ih]

theorem likeMatch_percent (ps : List Char) (s : List Char) :
    likeMatch ('%' :: ps) s = anySuffix (likeMatch ps) s := by
  simp [likeMatch]

theorem anySuffix_empty_pat (s : List Char) :
    anySuffix (likeMatch []) s = true := by
  induction s with
  | nil => simp [anySuffix, likeMatch]
  | cons c s2 ih =>
      simp [anySuffix, likeMatch] at ih ⊢
      exact ih

theorem likeMatch_lit_percent (q : List Char) (hq : noWild q = true) :
    ∀ s, likeMatch (q ++ ['%']) s = startsCI q s := by
  induction q with
  | nil =>
      intro s
      show likeMatch ('%' :: []) s = startsCI [] s
      rw [likeMatch_percent, anySuffix_empty_pat]
      rfl
  | cons a q2 ih =>
      intro s
      have hcons : noWild (a :: q2) = ((a != '%' && a != '_') && noWild q2) :=
        rfl
      rw [hcons] at hq
      obtain ⟨hpa, hq2⟩ := Bool.and_eq_true_iff.mp hq
      obtain ⟨h1, h2⟩ := Bool.and_eq_true_iff.mp hpa
      have h1' : ¬(a = '%') := by simpa [bne_iff_ne] using h1
      have h2' : ¬(a = '_') := by simpa [bne_iff_ne] using h2
      cases s with
      | nil => simp [likeMatch, startsCI, h1']
      | cons c s2 => simp [likeMatch, startsCI, h1', h2', ih hq2 s2]

theorem likeMatch_substr (q : List Char) (hq : noWild q = true)
    (s : List Char) :
    likeMatch ('%' :: (q ++ ['%'])) s = substrCI q s := by
  rw [likeMatch_percent]
  exact anySuffix_congr _ _ (fun t => likeMatch_lit_percent q hq t) s

/-- Reduction of `get_projects` for a non-empty filter string. -/
theorem get_projects_some_eq (s : State) (q : String) (hq : ¬(q = "")) :
    get_projects s (some q) =
      ((s.projects.filter (fun p => p.status == "open")).filter
        (fun p => likeMatch ("%" ++ q ++ "%").data p.description.data)).mergeSort
        (fun a b => decide (b.created_at ≤ a.created_at)) := by
  simp [get_projects, hq]

/-- Open project of the C6 counterexample store. -/
def c6P : Project := { id := 1, title := "T", description := "Need a React dev", budget := 100, created_at := 0, client_id := 1 }

/-- C6 counterexample store: one open project. -/
def c6S : State := { users := [dU1], projects := [c6P], clock := 1 }

/-- C6 counterexample: the filter string `"R_act"` is not a substring of
the only project's description (case-insensitively or otherwise), yet
`get_projects` returns that project, because the raw filter string is
interpolated into the `LIKE` pattern and its `_` acts as a single-character
wildcard. -/
theorem C6_counterexample_wildcard_injection :
    get_projects c6S (some "R_act") = [c6P] ∧
    substrCI ("R_act").data ("Need a React dev").data = false ∧
    c6P.description = "Need a React dev" := by
  refine ⟨?_, by decide, rfl⟩
  rw [get_projects_some_eq c6S "R_act" (by decide)]
  have h2 : ((c6S.projects.filter (fun p => p.status == "open")).filter
      (fun p => likeMatch ("%" ++ "R_act" ++ "%").data p.description.data)) =
      [c6P] := by decide
  rw [h2, List.mergeSort_singleton]

/-- C6 (amended): listing with a non-empty skill filter returns exactly
the open projects whose description matches the SQL `LIKE` pattern
`%filter%` — case-insensitively, with `%` and `_` inside the filter acting
as wildcards — ordered by creation timestamp newest first; for a filter
without wildcard characters this is exactly the open projects whose
description contains the filter as a case-insensitive substring. -/
theorem C6_get_projects_like_filter (s : State) (q : String)
    (hq : ¬(q = "")) :
    (get_projects s (some q)).Perm
      (s.projects.filter (fun p =>
        p.status == "open" &&
        likeMatch ("%" ++ q ++ "%").data p.description.data)) ∧
    (get_projects s (some q)).Pairwise
      (fun a b => b.created_at ≤ a.created_at) ∧
    (noWild q.data = true →
      (get_projects s (some q)).Perm
        (s.projects.filter (fun p =>
          p.status == "open" && substrCI q.data p.description.data))) := by
  rw [get_projects_some_eq s q hq]
  set l := (s.projects.filter (fun p => p.status == "open")).filter
    (fun p => likeMatch ("%" ++ q ++ "%").data p.description.data) with hl
  have hperm := List.mergeSort_perm l
    (fun a b => decide (b.created_at ≤ a.created_at))
  refine ⟨?_, ?_, ?_⟩
  · refine hperm.trans ?_
    have h1 : l = s.projects.filter (fun p =>
        p.status == "open" &&
        likeMatch ("%" ++ q ++ "%").data p.description.data) := by
      rw [hl, List.filter_filter]
      exact List.filter_congr (fun a _ => Bool.and_comm _ _)
    rw [h1]
  · have htrans : ∀ a b c : Project,
        decide (b.created_at ≤ a.created_at) = true →
        decide (c.created_at ≤ b.created_at) = true →
        decide (c.created_at ≤ a.created_at) = true := by
      intro a b c h1 h2
      simp only [decide_eq_true_eq] at h1 h2 ⊢
      omega
    have htot : ∀ a b : Project,
        (decide (b.created_at ≤ a.created_at) ||
          decide (a.created_at ≤ b.created_at)) = true := by
      intro a b
      rcases Nat.le_total b.created_at a.created_at with h | h <;> simp [h]
    have hs := List.sorted_mergeSort htrans htot l
    exact hs.imp (fun h => of_decide_eq_true h)
  · intro hnw
    refine hperm.trans ?_
    have hdata : ("%" ++ q ++ "%").data = '%' :: (q.data ++ ['%']) := by
      simp [String.data_append]
    have h1 : l = s.projects.filter (fun p =>
        p.status == "open" && substrCI q.data p.description.data) := by
      rw [hl, List.filter_filter]
      refine List.filter_congr ?_
      intro a _
      rw [hdata, likeMatch_substr q.data hnw, Bool.and_comm]
    rw [h1]

/-- C6 witness: the amended statement applied to the demo store with the
filter `"React"`. -/
theorem C6_get_projects_like_filter_witness :
    ¬(("React" : String) = "") ∧
    ((get_projects c6S (some "React")).Perm
      (c6S.projects.filter (fun p =>
        p.status == "open" &&
        likeMatch ("%" ++ "React" ++ "%").data p.description.data)) ∧
    (get_projects c6S (some "React")).Pairwise
      (fun a b => b.created_at ≤ a.created_at) ∧
    (noWild ("React").data = true →
      (get_projects c6S (some "React")).Perm
        (c6S.projects.filter (fun p =>
          p.status == "open" &&
          substrCI ("React").data p.description.data)))) :=
  ⟨by decide, C6_get_projects_like_filter c6S "React" (by decide)⟩

/-- C8 counterexample: freelancer 2 already has a bid on project 1, but
once the project is `"in_progress"` a second place-bid call fails with the
state error — not as duplicate — because the status pre-check fires before
the duplicate pre-check. -/
theorem C8_counterexample_duplicate_on_closed_project :
    dU2.is_freelancer = true ∧
    findUser dSacc 2 = some dU2 ∧
    dB1 ∈ dSacc.bids ∧ dB1.project_id = 1 ∧ dB1.freelancer_id = dU2.id ∧
    place_bid dSacc 2 1 70 "x" =
      .error (.badRequest "Project is not open for bidding") ∧
    place_bid dSacc 2 1 70 "x" ≠
      .error (.badRequest "You have already placed a bid on this project") := by
  decide
